import Mathlib

/-!
# Bootstrap of the display hub frontend (frontend/src/main.js)

The module is a straight line of framework calls: one createApp, three
registrations through use, one mount.  The framework (vue, primevue) is not
part of the module, so it is a parameter of the embedding: an arbitrary
state type together with three operations, each of which may throw.  The
module body is a program in a small state, trace and exception monad, and
the statements below are about the run of that program against an arbitrary
framework.  Only the statement on the page after the mount needs more: it is
made on a document host written after the words of the spec.
-/

namespace MainJs

/-! ## Values -/

mutual
/-- JavaScript values that occur in the module: literals, imported bindings
    and object literals. -/
inductive JSValue where
  | undefined
  | bool (b : Bool)
  | str (s : String)
  | imported (binding : String) (source : String)
  | obj (fields : JSFields)
  deriving DecidableEq
/-- Own properties of an object literal, in source order. -/
inductive JSFields where
  | nil
  | cons (key : String) (value : JSValue) (rest : JSFields)
  deriving DecidableEq
end

/-- Property names of a field list, in source order. -/
def JSFields.keys : JSFields → List String
  | .nil => []
  | .cons k _ rest => k :: rest.keys

/-- Property read on a field list. -/
def JSFields.get? : JSFields → String → Option JSValue
  | .nil, _ => none
  | .cons k v rest, name => if k = name then some v else rest.get? name

/-- Own property names of a value; a value that is not an object has none. -/
def JSValue.keys : JSValue → List String
  | .obj fs => fs.keys
  | _ => []

/-- Property read; reading from a value that is not an object gives nothing. -/
def JSValue.get? : JSValue → String → Option JSValue
  | .obj fs, name => fs.get? name
  | _, _ => none

/-- Chained property read such as theme.options.darkModeSelector. -/
def JSValue.getPath : JSValue → List String → Option JSValue
  | v, [] => some v
  | v, name :: rest => (v.get? name).bind (fun w => w.getPath rest)

/-! ## Imports (lines 1 to 6 of main.js)

The two style sheet imports of lines 7 and 8 bind no name and issue no
framework call; they have no counterpart below. -/

/-- Line 2: default export of primevue/config. -/
def PrimeVue : JSValue := .imported "default" "primevue/config"

/-- Line 3: default export of primevue/confirmationservice. -/
def ConfirmationService : JSValue := .imported "default" "primevue/confirmationservice"

/-- Line 4: default export of primevue/toastservice. -/
def ToastService : JSValue := .imported "default" "primevue/toastservice"

/-- Line 5: default export of the Aura preset module. -/
def Aura : JSValue := .imported "default" "@primeuix/themes/aura"

/-- Line 6: the root component. -/
def App : JSValue := .imported "default" "./App.vue"

/-- Lines 12 to 19: the object literal handed to the PrimeVue registration. -/
def primeVueOptions : JSValue :=
  .obj (.cons "theme"
    (.obj (.cons "preset" Aura
      (.cons "options" (.obj (.cons "darkModeSelector" (.bool false) .nil))
      .nil)))
    .nil)

/-! ## Framework interface and calls -/

/-- Identity of an application instance handed out by createApp. -/
abbrev AppId := Nat

/-- A thrown JavaScript value. -/
structure Fault where
  thrown : JSValue
  deriving DecidableEq

/-- One framework call as the module issues it: createApp of vue (line 1),
    and the methods use and mount of the instance it returned. -/
inductive Call where
  | createApp (root : JSValue)
  | use (recv : AppId) (plugin : JSValue) (options : List JSValue)
  | mount (recv : AppId) (container : JSValue)
  deriving DecidableEq

/-- Recogniser for createApp calls. -/
def Call.isCreateApp : Call → Bool
  | .createApp _ => true
  | _ => false

/-- Recogniser for use calls. -/
def Call.isUse : Call → Bool
  | .use _ _ _ => true
  | _ => false

/-- Recogniser for mount calls. -/
def Call.isMount : Call → Bool
  | .mount _ _ => true
  | _ => false

/-- Instance a method call is issued on; createApp has no receiver. -/
def Call.receiver? : Call → Option AppId
  | .createApp _ => none
  | .use a _ _ => some a
  | .mount a _ => some a

/-- Method name of a call. -/
def Call.method : Call → String
  | .createApp _ => "createApp"
  | .use _ _ _ => "use"
  | .mount _ _ => "mount"

/-- Argument list of a call, receiver left out. -/
def Call.args : Call → List JSValue
  | .createApp root => [root]
  | .use _ plugin options => plugin :: options
  | .mount _ container => [container]

/-- Options of a call when it is a registration of the given plugin. -/
def Call.optionsFor (plugin : JSValue) : Call → Option (List JSValue)
  | .use _ p options => if p = plugin then some options else none
  | _ => none

/-- The host environment as the module sees it: a state of any type (DOM,
    media queries, registered plugins, ...) and the three framework entry
    points, each of which either throws or returns with a new state.  What
    createApp returns is an application instance, that is a value on which use
    and mount can be called; the values returned by use and mount are dropped
    by the module and are not kept here. -/
structure Framework (σ : Type) where
  createApp : JSValue → σ → Except Fault (AppId × σ)
  use : AppId → JSValue → List JSValue → σ → Except Fault σ
  mount : AppId → JSValue → σ → Except Fault σ

/-- Outcome of running module code: the calls issued so far, the host state
    reached, and either a value or the fault that ended the run. -/
structure Run (σ α : Type) where
  trace : List Call
  state : σ
  result : Except Fault α

/-- Module code: given the framework, the calls issued so far and the host
    state, it produces an outcome. -/
def Boot (σ α : Type) : Type := Framework σ → List Call → σ → Run σ α

/-- A statement that completes normally with a value. -/
def Boot.pure {σ α : Type} (a : α) : Boot σ α :=
  fun _ tr s => ⟨tr, s, .ok a⟩

/-- Sequencing of statements.  There is no try/catch in the module, so a
    fault of the first statement ends the run and the rest is skipped. -/
def Boot.bind {σ α β : Type} (x : Boot σ α) (f : α → Boot σ β) : Boot σ β :=
  fun fw tr s =>
    match x fw tr s with
    | ⟨tr1, s1, .ok a⟩ => f a fw tr1 s1
    | ⟨tr1, s1, .error e⟩ => ⟨tr1, s1, .error e⟩

instance {σ : Type} : Monad (Boot σ) where
  pure := Boot.pure
  bind := Boot.bind

/-- The call createApp(root); its value is the new instance. -/
def createApp {σ : Type} (root : JSValue) : Boot σ AppId :=
  fun fw tr s =>
    match fw.createApp root s with
    | .ok (a, s1) => ⟨tr ++ [Call.createApp root], s1, .ok a⟩
    | .error e => ⟨tr ++ [Call.createApp root], s, .error e⟩

/-- The call app.use(plugin, ...options); its value is not used. -/
def AppId.use {σ : Type} (app : AppId) (plugin : JSValue) (options : List JSValue) :
    Boot σ Unit :=
  fun fw tr s =>
    match fw.use app plugin options s with
    | .ok s1 => ⟨tr ++ [Call.use app plugin options], s1, .ok ()⟩
    | .error e => ⟨tr ++ [Call.use app plugin options], s, .error e⟩

/-- The call app.mount(container); its value is not used. -/
def AppId.mount {σ : Type} (app : AppId) (container : JSValue) : Boot σ Unit :=
  fun fw tr s =>
    match fw.mount app container s with
    | .ok s1 => ⟨tr ++ [Call.mount app container], s1, .ok ()⟩
    | .error e => ⟨tr ++ [Call.mount app container], s, .error e⟩

/-- Lines 10 to 23 of main.js, statement by statement. -/
def main {σ : Type} : Boot σ Unit := do
  let app ← createApp App
  app.use PrimeVue [primeVueOptions]
  app.use ConfirmationService []
  app.use ToastService []
  app.mount (.str "#app")

/-- Run of the module from an empty trace. -/
def bootstrap {σ : Type} (fw : Framework σ) (s0 : σ) : Run σ Unit :=
  main fw [] s0

/-! ## Example hosts

Two concrete frameworks on which the statements below are evaluated. -/

/-- A host in which every call returns: the state is the media-query flag
    prefers-color-scheme: dark, left untouched, and createApp hands out the
    given instance. -/
def quietHost (a : AppId) : Framework Bool where
  createApp := fun _ dark => .ok (a, dark)
  use := fun _ _ _ dark => .ok dark
  mount := fun _ _ dark => .ok dark

/-- A host that counts the calls it has served and throws on call number k
    (counted from 0); createApp hands out instance 7. -/
def throwingHost (k : Nat) : Framework Nat where
  createApp := fun _ n =>
    if n = k then .error ⟨.str "createApp failed"⟩ else .ok (7, n + 1)
  use := fun _ _ _ n =>
    if n = k then .error ⟨.str "install failed"⟩ else .ok (n + 1)
  mount := fun _ _ n =>
    if n = k then .error ⟨.str "mount failed"⟩ else .ok (n + 1)

/-! ## A document host, modelled from the spec

What createApp and mount do to the page is decided by vue and by App.vue,
which are outside the module.  The host below follows the words of the
spec (sections 3, 4.1, 6, 7 and the glossary) and is used only where a
statement is about the page itself. -/

/-- Modelled from the spec: a node of an element subtree.  The rendering of
    the root UI definition (vue together with App.vue) is missing; the spec
    only names its result, the rendered output of the root UI, which is kept
    as one node carrying the definition that was rendered. -/
inductive DomNode where
  | text (data : String)
  | rendered (root : JSValue)
  deriving DecidableEq

/-- Modelled from the spec: an element of the host document (the DOM is
    missing), reduced to its id and its subtree. -/
structure Element where
  id : String
  children : List DomNode
  deriving DecidableEq

/-- Modelled from the spec: selector matching of the missing DOM, for id
    selectors such as the fixed identifier of section 4.1. -/
def Element.matchesSelector (e : Element) (selector : JSValue) : Bool :=
  decide (selector = .str ("#" ++ e.id))

/-- Modelled from the spec: the mount of the glossary (the missing vue
    method), attaching rendered output to the first element that matches and
    replacing its prior content; nothing when no element matches. -/
def mountInto (root : JSValue) (selector : JSValue) : List Element → Option (List Element)
  | [] => none
  | e :: rest =>
    if e.matchesSelector selector then
      some ({ e with children := [DomNode.rendered root] } :: rest)
    else
      (mountInto root selector rest).map (fun doc => e :: doc)

/-- Modelled from the spec: state of the missing host, that is the document,
    the media-query flag of section 8, the root definition of each instance
    created so far, the plugins each instance owns (section 3), and the log
    of subtree replacements carried out. -/
structure HostState where
  document : List Element
  prefersDark : Bool
  roots : List JSValue
  plugins : List (AppId × JSValue)
  replaced : List (AppId × JSValue)

/-- Modelled from the spec: the missing framework.  createApp makes a new
    instance bound to the root definition, use records the plugin with the
    instance, mount is the mount of the glossary and faults when the target
    is absent (section 7). -/
def documentHost : Framework HostState where
  createApp := fun root s =>
    .ok (s.roots.length, { s with roots := s.roots ++ [root] })
  use := fun a plugin _ s =>
    .ok { s with plugins := s.plugins ++ [(a, plugin)] }
  mount := fun a selector s =>
    match s.roots[a]? with
    | none => .error ⟨.str "unknown application instance"⟩
    | some root =>
      match mountInto root selector s.document with
      | none => .error ⟨.str "mount target not found"⟩
      | some doc =>
        .ok { s with document := doc, replaced := s.replaced ++ [(a, selector)] }

/-- The host document of the example scenario: one empty div with id app. -/
def emptyAppPage : HostState where
  document := [⟨"app", []⟩]
  prefersDark := true
  roots := []
  plugins := []
  replaced := []

/-! ## The run of the module, case by case -/

section Cases

variable {σ : Type}

theorem bootstrap_createApp_error (fw : Framework σ) (s0 : σ) (e : Fault)
    (h0 : fw.createApp App s0 = .error e) :
    bootstrap fw s0 = ⟨[Call.createApp App], s0, .error e⟩ := by
  simp [bootstrap, main, bind, Boot.bind, createApp, h0]

theorem bootstrap_theme_error (fw : Framework σ) (s0 s1 : σ) (a : AppId) (e : Fault)
    (h0 : fw.createApp App s0 = .ok (a, s1))
    (h1 : fw.use a PrimeVue [primeVueOptions] s1 = .error e) :
    bootstrap fw s0 =
      ⟨[Call.createApp App, Call.use a PrimeVue [primeVueOptions]], s1, .error e⟩ := by
  simp [bootstrap, main, bind, Boot.bind, createApp, AppId.use, h0, h1]

theorem bootstrap_confirmation_error (fw : Framework σ) (s0 s1 s2 : σ) (a : AppId)
    (e : Fault)
    (h0 : fw.createApp App s0 = .ok (a, s1))
    (h1 : fw.use a PrimeVue [primeVueOptions] s1 = .ok s2)
    (h2 : fw.use a ConfirmationService [] s2 = .error e) :
    bootstrap fw s0 =
      ⟨[Call.createApp App, Call.use a PrimeVue [primeVueOptions],
        Call.use a ConfirmationService []], s2, .error e⟩ := by
  simp [bootstrap, main, bind, Boot.bind, createApp, AppId.use, h0, h1, h2]

theorem bootstrap_toast_error (fw : Framework σ) (s0 s1 s2 s3 : σ) (a : AppId)
    (e : Fault)
    (h0 : fw.createApp App s0 = .ok (a, s1))
    (h1 : fw.use a PrimeVue [primeVueOptions] s1 = .ok s2)
    (h2 : fw.use a ConfirmationService [] s2 = .ok s3)
    (h3 : fw.use a ToastService [] s3 = .error e) :
    bootstrap fw s0 =
      ⟨[Call.createApp App, Call.use a PrimeVue [primeVueOptions],
        Call.use a ConfirmationService [], Call.use a ToastService []], s3, .error e⟩ := by
  simp [bootstrap, main, bind, Boot.bind, createApp, AppId.use, h0, h1, h2, h3]

theorem bootstrap_mount_error (fw : Framework σ) (s0 s1 s2 s3 s4 : σ) (a : AppId)
    (e : Fault)
    (h0 : fw.createApp App s0 = .ok (a, s1))
    (h1 : fw.use a PrimeVue [primeVueOptions] s1 = .ok s2)
    (h2 : fw.use a ConfirmationService [] s2 = .ok s3)
    (h3 : fw.use a ToastService [] s3 = .ok s4)
    (h4 : fw.mount a (.str "#app") s4 = .error e) :
    bootstrap fw s0 =
      ⟨[Call.createApp App, Call.use a PrimeVue [primeVueOptions],
        Call.use a ConfirmationService [], Call.use a ToastService [],
        Call.mount a (.str "#app")], s4, .error e⟩ := by
  simp [bootstrap, main, bind, Boot.bind, createApp, AppId.use, AppId.mount, h0, h1, h2, h3, h4]

theorem bootstrap_all_ok (fw : Framework σ) (s0 s1 s2 s3 s4 s5 : σ) (a : AppId)
    (h0 : fw.createApp App s0 = .ok (a, s1))
    (h1 : fw.use a PrimeVue [primeVueOptions] s1 = .ok s2)
    (h2 : fw.use a ConfirmationService [] s2 = .ok s3)
    (h3 : fw.use a ToastService [] s3 = .ok s4)
    (h4 : fw.mount a (.str "#app") s4 = .ok s5) :
    bootstrap fw s0 =
      ⟨[Call.createApp App, Call.use a PrimeVue [primeVueOptions],
        Call.use a ConfirmationService [], Call.use a ToastService [],
        Call.mount a (.str "#app")], s5, .ok ()⟩ := by
  simp [bootstrap, main, bind, Boot.bind, createApp, AppId.use, AppId.mount, h0, h1, h2, h3, h4]

/-- Every run of the module is one of six: the fault of the first call that
    throws, with the calls up to and including it, or the full sequence. -/
theorem bootstrap_cases (fw : Framework σ) (s0 : σ) :
    (∃ e, fw.createApp App s0 = .error e ∧
      bootstrap fw s0 = ⟨[Call.createApp App], s0, .error e⟩) ∨
    (∃ a s1 e, fw.createApp App s0 = .ok (a, s1) ∧
      bootstrap fw s0 =
        ⟨[Call.createApp App, Call.use a PrimeVue [primeVueOptions]], s1, .error e⟩) ∨
    (∃ a s1 s2 e, fw.createApp App s0 = .ok (a, s1) ∧
      bootstrap fw s0 =
        ⟨[Call.createApp App, Call.use a PrimeVue [primeVueOptions],
          Call.use a ConfirmationService []], s2, .error e⟩) ∨
    (∃ a s1 s3 e, fw.createApp App s0 = .ok (a, s1) ∧
      bootstrap fw s0 =
        ⟨[Call.createApp App, Call.use a PrimeVue [primeVueOptions],
          Call.use a ConfirmationService [], Call.use a ToastService []], s3, .error e⟩) ∨
    (∃ a s1 s4 e, fw.createApp App s0 = .ok (a, s1) ∧
      bootstrap fw s0 =
        ⟨[Call.createApp App, Call.use a PrimeVue [primeVueOptions],
          Call.use a ConfirmationService [], Call.use a ToastService [],
          Call.mount a (.str "#app")], s4, .error e⟩) ∨
    (∃ a s1 s5, fw.createApp App s0 = .ok (a, s1) ∧
      bootstrap fw s0 =
        ⟨[Call.createApp App, Call.use a PrimeVue [primeVueOptions],
          Call.use a ConfirmationService [], Call.use a ToastService [],
          Call.mount a (.str "#app")], s5, .ok ()⟩) := by
  cases h0 : fw.createApp App s0 with
  | error e => exact Or.inl ⟨e, rfl, bootstrap_createApp_error fw s0 e h0⟩
  | ok r =>
    obtain ⟨a, s1⟩ := r
    cases h1 : fw.use a PrimeVue [primeVueOptions] s1 with
    | error e =>
      exact Or.inr (Or.inl ⟨a, s1, e, rfl, bootstrap_theme_error fw s0 s1 a e h0 h1⟩)
    | ok s2 =>
      cases h2 : fw.use a ConfirmationService [] s2 with
      | error e =>
        exact Or.inr (Or.inr (Or.inl
          ⟨a, s1, s2, e, rfl, bootstrap_confirmation_error fw s0 s1 s2 a e h0 h1 h2⟩))
      | ok s3 =>
        cases h3 : fw.use a ToastService [] s3 with
        | error e =>
          exact Or.inr (Or.inr (Or.inr (Or.inl
            ⟨a, s1, s3, e, rfl, bootstrap_toast_error fw s0 s1 s2 s3 a e h0 h1 h2 h3⟩)))
        | ok s4 =>
          cases h4 : fw.mount a (.str "#app") s4 with
          | error e =>
            exact Or.inr (Or.inr (Or.inr (Or.inr (Or.inl
              ⟨a, s1, s4, e, rfl,
                bootstrap_mount_error fw s0 s1 s2 s3 s4 a e h0 h1 h2 h3 h4⟩))))
          | ok s5 =>
            exact Or.inr (Or.inr (Or.inr (Or.inr (Or.inr
              ⟨a, s1, s5, rfl,
                bootstrap_all_ok fw s0 s1 s2 s3 s4 s5 a h0 h1 h2 h3 h4⟩))))

/-- Every call of a trace is one of the five calls of the source, the last
    four on the instance that createApp returned. -/
theorem mem_trace_cases (fw : Framework σ) (s0 : σ) (c : Call)
    (hc : c ∈ (bootstrap fw s0).trace) :
    c = Call.createApp App ∨
    ∃ a s1, fw.createApp App s0 = .ok (a, s1) ∧
      (c = Call.use a PrimeVue [primeVueOptions] ∨ c = Call.use a ConfirmationService [] ∨
       c = Call.use a ToastService [] ∨ c = Call.mount a (.str "#app")) := by
  rcases bootstrap_cases fw s0 with ⟨e, _, hb⟩ | ⟨a, s1, e, h0, hb⟩ |
    ⟨a, s1, s2, e, h0, hb⟩ | ⟨a, s1, s3, e, h0, hb⟩ | ⟨a, s1, s4, e, h0, hb⟩ |
    ⟨a, s1, s5, h0, hb⟩
  · rw [hb] at hc
    simp at hc
    exact Or.inl hc
  all_goals rw [hb] at hc
  all_goals simp only [List.mem_cons, List.mem_singleton, List.not_mem_nil, or_false] at hc
  all_goals rcases hc with hc | hc
  all_goals first
    | exact Or.inl hc
    | exact Or.inr ⟨a, s1, h0, by tauto⟩

end Cases



/-! ## The page after the run on the document host -/

theorem mountInto_of_mem (root selector : JSValue) (doc : List Element)
    (h : ∃ e ∈ doc, e.matchesSelector selector = true) :
    ∃ pre el post, doc = pre ++ el :: post ∧ el.matchesSelector selector = true ∧
      (∀ e ∈ pre, e.matchesSelector selector = false) ∧
      mountInto root selector doc =
        some (pre ++ ⟨el.id, [DomNode.rendered root]⟩ :: post) := by
  induction doc with
  | nil => simp at h
  | cons d rest ih =>
    by_cases hd : d.matchesSelector selector = true
    · exact ⟨[], d, rest, rfl, hd, by simp, by simp [mountInto, hd]⟩
    · have hrest : ∃ e ∈ rest, e.matchesSelector selector = true := by
        obtain ⟨e, he, hm⟩ := h
        rcases List.mem_cons.mp he with rfl | he
        · exact absurd hm hd
        · exact ⟨e, he, hm⟩
      obtain ⟨pre, el, post, hdoc, hel, hpre, hm⟩ := ih hrest
      refine ⟨d :: pre, el, post, by simp [hdoc], hel, ?_, ?_⟩
      · intro e he
        rcases List.mem_cons.mp he with rfl | he
        · simpa using hd
        · exact hpre e he
      · simp [mountInto, hd, hm]

theorem bootstrap_documentHost (s0 : HostState) (doc : List Element)
    (h : mountInto App (.str "#app") s0.document = some doc) :
    bootstrap documentHost s0 =
      ⟨[Call.createApp App, Call.use s0.roots.length PrimeVue [primeVueOptions],
        Call.use s0.roots.length ConfirmationService [],
        Call.use s0.roots.length ToastService [],
        Call.mount s0.roots.length (.str "#app")],
       { document := doc, prefersDark := s0.prefersDark, roots := s0.roots ++ [App],
         plugins := s0.plugins ++ [(s0.roots.length, PrimeVue),
           (s0.roots.length, ConfirmationService), (s0.roots.length, ToastService)],
         replaced := s0.replaced ++ [(s0.roots.length, .str "#app")] },
       .ok ()⟩ := by
  apply bootstrap_all_ok documentHost s0 _ _ _ _ _ s0.roots.length
  · rfl
  · rfl
  · rfl
  · rfl
  · simp [documentHost, h]

/-! ## The claims -/

section Claims

variable {σ : Type}

/-- C1: in a run of the bootstrap in which no framework call throws, the calls
    issued on the application instance are exactly use(PrimeVue, options),
    use(ConfirmationService), use(ToastService), mount("#app"), in that order; the
    mount is the last call of the trace and every registration comes before it. -/
theorem registrations_in_order_then_mount (fw : Framework σ) (s0 : σ)
    (hok : (bootstrap fw s0).result = .ok ()) :
    ∃ a s1, fw.createApp App s0 = .ok (a, s1) ∧
      (bootstrap fw s0).trace.filter (fun c => c.receiver? = some a) =
        [Call.use a PrimeVue [primeVueOptions], Call.use a ConfirmationService [],
         Call.use a ToastService [], Call.mount a (.str "#app")] ∧
      (bootstrap fw s0).trace.getLast? = some (Call.mount a (.str "#app")) ∧
      (∀ (i j : Nat) (c m : Call), (bootstrap fw s0).trace[i]? = some c →
        (bootstrap fw s0).trace[j]? = some m →
        c.isUse = true → m.isMount = true → i < j) := by
  rcases bootstrap_cases fw s0 with ⟨e, _, hb⟩ | ⟨a, s1, e, _, hb⟩ | ⟨a, s1, s2, e, _, hb⟩ |
    ⟨a, s1, s3, e, _, hb⟩ | ⟨a, s1, s4, e, _, hb⟩ | ⟨a, s1, s5, h0, hb⟩
  all_goals rw [hb] at hok ⊢
  all_goals try (simp at hok; done)
  refine ⟨a, s1, h0, ?_, ?_, ?_⟩
  · simp [Call.receiver?]
  · simp
  · intro i j c m hi hj hc hm
    rcases i with _ | _ | _ | _ | _ | i <;> rcases j with _ | _ | _ | _ | _ | j <;>
      simp at hi hj <;> subst hi <;> subst hj <;> simp_all [Call.isUse, Call.isMount]

/-- Witness of C1 on the quiet host handing out instance 3, with the dark media
    query on. -/
theorem registrations_in_order_then_mount_witness :
    ∃ a s1, (quietHost 3).createApp App true = .ok (a, s1) ∧
      (bootstrap (quietHost 3) true).trace.filter (fun c => c.receiver? = some a) =
        [Call.use a PrimeVue [primeVueOptions], Call.use a ConfirmationService [],
         Call.use a ToastService [], Call.mount a (.str "#app")] ∧
      (bootstrap (quietHost 3) true).trace.getLast? = some (Call.mount a (.str "#app")) ∧
      (∀ (i j : Nat) (c m : Call), (bootstrap (quietHost 3) true).trace[i]? = some c →
        (bootstrap (quietHost 3) true).trace[j]? = some m →
        c.isUse = true → m.isMount = true → i < j) :=
  registrations_in_order_then_mount (quietHost 3) true rfl

/-- C2: whatever the host and its state (media queries included), every
    registration of PrimeVue in the trace carries one options object whose
    theme.options.darkModeSelector is the boolean false, and that registration
    is issued as soon as createApp has returned. -/
theorem darkModeSelector_always_false (fw : Framework σ) (s0 : σ) :
    primeVueOptions.getPath ["theme", "options", "darkModeSelector"] = some (.bool false) ∧
    (∀ (a : AppId) (options : List JSValue),
      Call.use a PrimeVue options ∈ (bootstrap fw s0).trace →
      ∃ cfg, options = [cfg] ∧
        cfg.getPath ["theme", "options", "darkModeSelector"] = some (.bool false)) ∧
    (∀ (a : AppId) (s1 : σ), fw.createApp App s0 = .ok (a, s1) →
      Call.use a PrimeVue [primeVueOptions] ∈ (bootstrap fw s0).trace) := by
  refine ⟨by decide, ?_, ?_⟩
  · intro a options hmem
    rcases bootstrap_cases fw s0 with ⟨e, _, hb⟩ | ⟨a, s1, e, _, hb⟩ |
      ⟨a, s1, s2, e, _, hb⟩ | ⟨a, s1, s3, e, _, hb⟩ | ⟨a, s1, s4, e, _, hb⟩ |
      ⟨a, s1, s5, _, hb⟩
    all_goals rw [hb] at hmem
    all_goals simp [PrimeVue, ConfirmationService, ToastService] at hmem
    all_goals obtain ⟨_, rfl⟩ := hmem
    all_goals exact ⟨primeVueOptions, rfl, by decide⟩
  · intro a s1 h0
    rcases bootstrap_cases fw s0 with ⟨e, h, hb⟩ | ⟨b, t1, e, h, hb⟩ |
      ⟨b, t1, s2, e, h, hb⟩ | ⟨b, t1, s3, e, h, hb⟩ | ⟨b, t1, s4, e, h, hb⟩ |
      ⟨b, t1, s5, h, hb⟩
    all_goals rw [h0] at h
    all_goals simp at h
    all_goals obtain ⟨rfl, rfl⟩ := h
    all_goals rw [hb]
    all_goals simp

/-- Witness of C2 on the quiet host with the dark media query on. -/
theorem darkModeSelector_always_false_witness :
    ∃ cfg, [primeVueOptions] = [cfg] ∧
      cfg.getPath ["theme", "options", "darkModeSelector"] = some (.bool false) :=
  (darkModeSelector_always_false (quietHost 0) true).2.1 0 [primeVueOptions] (by decide)


/-- C3: the trace never holds more than one mount; when it holds one, the
    three registrations are all before it and nothing is after it; and a run
    in which no call throws holds exactly one. -/
theorem mount_once_after_registrations (fw : Framework σ) (s0 : σ) :
    (bootstrap fw s0).trace.countP Call.isMount ≤ 1 ∧
    ((bootstrap fw s0).trace.countP Call.isMount = 1 →
      ((bootstrap fw s0).trace.takeWhile (fun c => !c.isMount)).countP Call.isUse = 3 ∧
      ((bootstrap fw s0).trace.dropWhile (fun c => !c.isMount)).length = 1) ∧
    ((bootstrap fw s0).result = .ok () →
      (bootstrap fw s0).trace.countP Call.isMount = 1) := by
  rcases bootstrap_cases fw s0 with ⟨e, _, hb⟩ | ⟨a, s1, e, _, hb⟩ | ⟨a, s1, s2, e, _, hb⟩ |
    ⟨a, s1, s3, e, _, hb⟩ | ⟨a, s1, s4, e, _, hb⟩ | ⟨a, s1, s5, _, hb⟩
  all_goals rw [hb]
  all_goals simp [Call.isMount, Call.isUse, List.countP_cons, List.takeWhile, List.dropWhile]

/-- Witness of C3 on the quiet host: one mount, three registrations before it,
    nothing after it. -/
theorem mount_once_after_registrations_witness :
    (bootstrap (quietHost 3) false).trace.countP Call.isMount = 1 ∧
    ((bootstrap (quietHost 3) false).trace.takeWhile
      (fun c => !c.isMount)).countP Call.isUse = 3 ∧
    ((bootstrap (quietHost 3) false).trace.dropWhile (fun c => !c.isMount)).length = 1 :=
  ⟨(mount_once_after_registrations (quietHost 3) false).2.2 rfl,
   (mount_once_after_registrations (quietHost 3) false).2.1
     ((mount_once_after_registrations (quietHost 3) false).2.2 rfl)⟩

/-- C4: createApp is called exactly once, first, with the root definition App;
    every later call is issued on the instance that call returned; and a run in
    which no call throws issues use, use, use, mount on it. -/
theorem one_instance_bound_to_App (fw : Framework σ) (s0 : σ) :
    (bootstrap fw s0).trace.countP Call.isCreateApp = 1 ∧
    (bootstrap fw s0).trace.head? = some (Call.createApp App) ∧
    (∀ (a : AppId) (s1 : σ), fw.createApp App s0 = .ok (a, s1) →
      ∀ c ∈ (bootstrap fw s0).trace.tail, c.receiver? = some a) ∧
    ((bootstrap fw s0).result = .ok () →
      ∃ a s1, fw.createApp App s0 = .ok (a, s1) ∧
        (bootstrap fw s0).trace.tail.map (fun c => (c.method, c.receiver?)) =
          [("use", some a), ("use", some a), ("use", some a), ("mount", some a)]) := by
  rcases bootstrap_cases fw s0 with ⟨e, h, hb⟩ | ⟨b, t1, e, h, hb⟩ | ⟨b, t1, s2, e, h, hb⟩ |
    ⟨b, t1, s3, e, h, hb⟩ | ⟨b, t1, s4, e, h, hb⟩ | ⟨b, t1, s5, h, hb⟩
  iterate 5
    rw [hb]
    exact ⟨by simp [Call.isCreateApp, List.countP_cons], by simp,
      fun a s1 h0 => by simp_all [Call.receiver?], fun hok => by simp at hok⟩
  rw [hb]
  exact ⟨by simp [Call.isCreateApp, List.countP_cons], by simp,
    fun a s1 h0 => by simp_all [Call.receiver?],
    fun _ => ⟨b, t1, h, by simp [Call.method, Call.receiver?]⟩⟩

/-- Witness of C4 on the counting host: the instance is number 7 and all four
    later calls are issued on it. -/
theorem one_instance_bound_to_App_witness :
    ∃ a s1, (throwingHost 9).createApp App 0 = .ok (a, s1) ∧
      (bootstrap (throwingHost 9) 0).trace.tail.map (fun c => (c.method, c.receiver?)) =
        [("use", some a), ("use", some a), ("use", some a), ("mount", some a)] :=
  (one_instance_bound_to_App (throwingHost 9) 0).2.2.2 rfl

/-- C5: every mount in the trace, whatever the host and its state, has the
    string "#app" as its argument; a run in which no call throws holds it. -/
theorem mount_target_is_app (fw : Framework σ) (s0 : σ) :
    (∀ (a : AppId) (container : JSValue),
      Call.mount a container ∈ (bootstrap fw s0).trace → container = .str "#app") ∧
    ((bootstrap fw s0).result = .ok () →
      (bootstrap fw s0).trace.filterMap
          (fun c => if c.isMount then some c.args else none) = [[.str "#app"]]) := by
  rcases bootstrap_cases fw s0 with ⟨e, _, hb⟩ | ⟨a, s1, e, _, hb⟩ | ⟨a, s1, s2, e, _, hb⟩ |
    ⟨a, s1, s3, e, _, hb⟩ | ⟨a, s1, s4, e, _, hb⟩ | ⟨a, s1, s5, _, hb⟩
  all_goals rw [hb]
  all_goals simp [Call.isMount, Call.args, List.filterMap_cons]

/-- Witness of C5 on the host that would throw on its tenth call. -/
theorem mount_target_is_app_witness :
    (bootstrap (throwingHost 9) 0).trace.filterMap
      (fun c => if c.isMount then some c.args else none) = [[.str "#app"]] :=
  (mount_target_is_app (throwingHost 9) 0).2 rfl


/-- C6: the bootstrap has no handler.  Whichever of its five calls throws first,
    the run ends with that very fault, with the throwing call as the last call
    issued and the host state it was issued in; a fault that does not come from
    mount leaves the trace without any mount; and a run ends normally only when
    all five calls returned. -/
theorem faults_propagate_unhandled (fw : Framework σ) (s0 : σ) :
    (∀ e, fw.createApp App s0 = .error e →
      bootstrap fw s0 = ⟨[Call.createApp App], s0, .error e⟩) ∧
    (∀ a s1 e, fw.createApp App s0 = .ok (a, s1) →
      fw.use a PrimeVue [primeVueOptions] s1 = .error e →
      bootstrap fw s0 =
        ⟨[Call.createApp App, Call.use a PrimeVue [primeVueOptions]], s1, .error e⟩) ∧
    (∀ a s1 s2 e, fw.createApp App s0 = .ok (a, s1) →
      fw.use a PrimeVue [primeVueOptions] s1 = .ok s2 →
      fw.use a ConfirmationService [] s2 = .error e →
      bootstrap fw s0 =
        ⟨[Call.createApp App, Call.use a PrimeVue [primeVueOptions],
          Call.use a ConfirmationService []], s2, .error e⟩) ∧
    (∀ a s1 s2 s3 e, fw.createApp App s0 = .ok (a, s1) →
      fw.use a PrimeVue [primeVueOptions] s1 = .ok s2 →
      fw.use a ConfirmationService [] s2 = .ok s3 →
      fw.use a ToastService [] s3 = .error e →
      bootstrap fw s0 =
        ⟨[Call.createApp App, Call.use a PrimeVue [primeVueOptions],
          Call.use a ConfirmationService [], Call.use a ToastService []], s3, .error e⟩) ∧
    (∀ a s1 s2 s3 s4 e, fw.createApp App s0 = .ok (a, s1) →
      fw.use a PrimeVue [primeVueOptions] s1 = .ok s2 →
      fw.use a ConfirmationService [] s2 = .ok s3 →
      fw.use a ToastService [] s3 = .ok s4 →
      fw.mount a (.str "#app") s4 = .error e →
      bootstrap fw s0 =
        ⟨[Call.createApp App, Call.use a PrimeVue [primeVueOptions],
          Call.use a ConfirmationService [], Call.use a ToastService [],
          Call.mount a (.str "#app")], s4, .error e⟩) ∧
    (∀ e c, (bootstrap fw s0).result = .error e →
      (bootstrap fw s0).trace.getLast? = some c → c.isMount = false →
      (bootstrap fw s0).trace.any Call.isMount = false) ∧
    ((bootstrap fw s0).result = .ok () →
      ∃ a s1 s2 s3 s4 s5, fw.createApp App s0 = .ok (a, s1) ∧
        fw.use a PrimeVue [primeVueOptions] s1 = .ok s2 ∧
        fw.use a ConfirmationService [] s2 = .ok s3 ∧
        fw.use a ToastService [] s3 = .ok s4 ∧
        fw.mount a (.str "#app") s4 = .ok s5 ∧
        (bootstrap fw s0).state = s5) := by
  refine ⟨fun e h0 => bootstrap_createApp_error fw s0 e h0,
    fun a s1 e h0 h1 => bootstrap_theme_error fw s0 s1 a e h0 h1,
    fun a s1 s2 e h0 h1 h2 => bootstrap_confirmation_error fw s0 s1 s2 a e h0 h1 h2,
    fun a s1 s2 s3 e h0 h1 h2 h3 => bootstrap_toast_error fw s0 s1 s2 s3 a e h0 h1 h2 h3,
    fun a s1 s2 s3 s4 e h0 h1 h2 h3 h4 =>
      bootstrap_mount_error fw s0 s1 s2 s3 s4 a e h0 h1 h2 h3 h4, ?_, ?_⟩
  · intro e c
    rcases bootstrap_cases fw s0 with ⟨e, _, hb⟩ | ⟨a, s1, e, _, hb⟩ |
      ⟨a, s1, s2, e, _, hb⟩ | ⟨a, s1, s3, e, _, hb⟩ | ⟨a, s1, s4, e, _, hb⟩ |
      ⟨a, s1, s5, _, hb⟩
    all_goals rw [hb]
    all_goals simp [Call.isMount]
    all_goals intro _ hc
    all_goals simp [← hc, Call.isMount]
  · intro hok
    cases h0 : fw.createApp App s0 with
    | error e => rw [bootstrap_createApp_error fw s0 e h0] at hok; simp at hok
    | ok r =>
      obtain ⟨a, s1⟩ := r
      cases h1 : fw.use a PrimeVue [primeVueOptions] s1 with
      | error e => rw [bootstrap_theme_error fw s0 s1 a e h0 h1] at hok; simp at hok
      | ok s2 =>
        cases h2 : fw.use a ConfirmationService [] s2 with
        | error e =>
          rw [bootstrap_confirmation_error fw s0 s1 s2 a e h0 h1 h2] at hok; simp at hok
        | ok s3 =>
          cases h3 : fw.use a ToastService [] s3 with
          | error e =>
            rw [bootstrap_toast_error fw s0 s1 s2 s3 a e h0 h1 h2 h3] at hok; simp at hok
          | ok s4 =>
            cases h4 : fw.mount a (.str "#app") s4 with
            | error e =>
              rw [bootstrap_mount_error fw s0 s1 s2 s3 s4 a e h0 h1 h2 h3 h4] at hok
              simp at hok
            | ok s5 =>
              exact ⟨a, s1, s2, s3, s4, s5, rfl, h1, h2, h3, h4,
                by rw [bootstrap_all_ok fw s0 s1 s2 s3 s4 s5 a h0 h1 h2 h3 h4]⟩

/-- Witness of C6 on the host that throws on its third call, the registration
    of ConfirmationService: the run ends with that fault after three calls, ToastService
    is never registered and mount is never called. -/
theorem faults_propagate_unhandled_witness :
    bootstrap (throwingHost 2) 0 =
      ⟨[Call.createApp App, Call.use 7 PrimeVue [primeVueOptions],
        Call.use 7 ConfirmationService []], 2, .error ⟨.str "install failed"⟩⟩ ∧
    (bootstrap (throwingHost 2) 0).trace.any Call.isMount = false :=
  ⟨(faults_propagate_unhandled (throwingHost 2) 0).2.2.1 7 1 2 ⟨.str "install failed"⟩
      rfl rfl rfl,
   (faults_propagate_unhandled (throwingHost 2) 0).2.2.2.2.2.1 ⟨.str "install failed"⟩
      (Call.use 7 ConfirmationService []) rfl rfl rfl⟩

/-- C7 (on the document host modelled from the spec): when the host document
    holds an element matching "#app", the bootstrap ends normally, the first
    such element keeps its id and has the rendered root UI of App as its whole
    subtree, so its content is not empty, every other element is as before, and
    exactly one subtree replacement has been carried out. -/
theorem mount_replaces_app_subtree (s0 : HostState)
    (h : ∃ e ∈ s0.document, e.matchesSelector (.str "#app") = true) :
    ∃ pre el post, s0.document = pre ++ el :: post ∧
      el.matchesSelector (.str "#app") = true ∧
      (∀ e ∈ pre, e.matchesSelector (.str "#app") = false) ∧
      (bootstrap documentHost s0).result = .ok () ∧
      (bootstrap documentHost s0).state.document =
        pre ++ ⟨el.id, [DomNode.rendered App]⟩ :: post ∧
      (⟨el.id, [DomNode.rendered App]⟩ : Element).children ≠ [] ∧
      DomNode.rendered App ∈ (⟨el.id, [DomNode.rendered App]⟩ : Element).children ∧
      (bootstrap documentHost s0).state.replaced =
        s0.replaced ++ [(s0.roots.length, .str "#app")] := by
  obtain ⟨pre, el, post, hdoc, hel, hpre, hm⟩ :=
    mountInto_of_mem App (.str "#app") s0.document h
  refine ⟨pre, el, post, hdoc, hel, hpre, ?_⟩
  rw [bootstrap_documentHost s0 _ hm]
  simp

/-- Witness of C7, the example scenario: the page is one empty div with id
    app, and after the bootstrap that div holds the rendered root UI. -/
theorem mount_replaces_app_subtree_witness :
    ∃ pre el post, emptyAppPage.document = pre ++ el :: post ∧
      el.matchesSelector (.str "#app") = true ∧
      (∀ e ∈ pre, e.matchesSelector (.str "#app") = false) ∧
      (bootstrap documentHost emptyAppPage).result = .ok () ∧
      (bootstrap documentHost emptyAppPage).state.document =
        pre ++ ⟨el.id, [DomNode.rendered App]⟩ :: post ∧
      (⟨el.id, [DomNode.rendered App]⟩ : Element).children ≠ [] ∧
      DomNode.rendered App ∈ (⟨el.id, [DomNode.rendered App]⟩ : Element).children ∧
      (bootstrap documentHost emptyAppPage).state.replaced =
        emptyAppPage.replaced ++ [(emptyAppPage.roots.length, .str "#app")] :=
  mount_replaces_app_subtree emptyAppPage ⟨⟨"app", []⟩, by decide, by decide⟩

/-- C8: in every trace the registrations of ConfirmationService and of
    ToastService carry no options argument, and a registration that carries
    one is the registration of PrimeVue; in a run in which no call throws the
    argument lists of the three registrations are the ones of the source. -/
theorem only_PrimeVue_carries_options (fw : Framework σ) (s0 : σ) :
    (∀ (a : AppId) (plugin : JSValue) (options : List JSValue),
      Call.use a plugin options ∈ (bootstrap fw s0).trace →
      (plugin = ConfirmationService → options = []) ∧
      (plugin = ToastService → options = []) ∧
      (options ≠ [] → plugin = PrimeVue)) ∧
    ((bootstrap fw s0).result = .ok () →
      ((bootstrap fw s0).trace.filter Call.isUse).map Call.args =
        [[PrimeVue, primeVueOptions], [ConfirmationService], [ToastService]]) := by
  constructor
  · intro b plugin options hmem
    rcases mem_trace_cases fw s0 _ hmem with hc | ⟨a, s1, _, hc | hc | hc | hc⟩
    all_goals simp at hc
    all_goals obtain ⟨_, rfl, rfl⟩ := hc
    all_goals simp [PrimeVue, ConfirmationService, ToastService]
  · rcases bootstrap_cases fw s0 with ⟨e, _, hb⟩ | ⟨a, s1, e, _, hb⟩ |
      ⟨a, s1, s2, e, _, hb⟩ | ⟨a, s1, s3, e, _, hb⟩ | ⟨a, s1, s4, e, _, hb⟩ |
      ⟨a, s1, s5, _, hb⟩
    all_goals rw [hb]
    all_goals simp [Call.isUse, Call.args, List.filter_cons]

/-- Witness of C8 on the quiet host. -/
theorem only_PrimeVue_carries_options_witness :
    ((bootstrap (quietHost 1) false).trace.filter Call.isUse).map Call.args =
      [[PrimeVue, primeVueOptions], [ConfirmationService], [ToastService]] :=
  (only_PrimeVue_carries_options (quietHost 1) false).2 rfl

/-- C9: the options object of the PrimeVue registration is one static object:
    its only key is theme, theme has exactly the keys preset and options,
    preset is the Aura import, options has exactly the key darkModeSelector,
    which is false; no run passes anything else to PrimeVue, and a run in which
    no call throws passes it once. -/
theorem options_object_shape (fw : Framework σ) (s0 : σ) :
    primeVueOptions.keys = ["theme"] ∧
    (∃ theme options, primeVueOptions.get? "theme" = some theme ∧
      theme.keys = ["preset", "options"] ∧
      theme.get? "preset" = some Aura ∧
      theme.get? "options" = some options ∧
      options.keys = ["darkModeSelector"] ∧
      options.get? "darkModeSelector" = some (.bool false)) ∧
    (∀ o ∈ (bootstrap fw s0).trace.filterMap (Call.optionsFor PrimeVue),
      o = [primeVueOptions]) ∧
    ((bootstrap fw s0).result = .ok () →
      (bootstrap fw s0).trace.filterMap (Call.optionsFor PrimeVue) = [[primeVueOptions]]) := by
  refine ⟨by decide, ⟨_, _, rfl, by decide, by decide, rfl, by decide, by decide⟩, ?_⟩
  rcases bootstrap_cases fw s0 with ⟨e, _, hb⟩ | ⟨a, s1, e, _, hb⟩ | ⟨a, s1, s2, e, _, hb⟩ |
    ⟨a, s1, s3, e, _, hb⟩ | ⟨a, s1, s4, e, _, hb⟩ | ⟨a, s1, s5, _, hb⟩
  all_goals rw [hb]
  all_goals
    simp [Call.optionsFor, List.filterMap_cons, PrimeVue, ConfirmationService, ToastService]

/-- Witness of C9 on the quiet host: the one options object passed to PrimeVue is
    the static object. -/
theorem options_object_shape_witness :
    (bootstrap (quietHost 2) true).trace.filterMap (Call.optionsFor PrimeVue) =
      [[primeVueOptions]] :=
  (options_object_shape (quietHost 2) true).2.2.2 rfl

/-- C10: two runs of the bootstrap, on any two hosts in any two states, in
    which no call throws, issue the same calls with the same arguments: the five
    calls of the source, each once, and an equal trace outright when both hosts hand
    out the same instance. -/
theorem trace_is_constant {τ : Type} (fw : Framework σ) (s0 : σ)
    (fw2 : Framework τ) (t0 : τ)
    (h1 : (bootstrap fw s0).result = .ok ()) (h2 : (bootstrap fw2 t0).result = .ok ()) :
    (bootstrap fw s0).trace.map (fun c => (c.method, c.args)) =
      (bootstrap fw2 t0).trace.map (fun c => (c.method, c.args)) ∧
    (bootstrap fw s0).trace.map (fun c => (c.method, c.args)) =
      [("createApp", [App]), ("use", [PrimeVue, primeVueOptions]),
       ("use", [ConfirmationService]), ("use", [ToastService]),
       ("mount", [.str "#app"])] ∧
    (bootstrap fw s0).trace.length = 5 ∧
    (bootstrap fw s0).trace.Nodup ∧
    ((bootstrap fw s0).trace.map (fun c => (c.method, c.args))).Nodup ∧
    ((bootstrap fw s0).trace.filterMap Call.receiver? =
        (bootstrap fw2 t0).trace.filterMap Call.receiver? →
      (bootstrap fw s0).trace = (bootstrap fw2 t0).trace) := by
  rcases bootstrap_cases fw s0 with ⟨e, _, hb⟩ | ⟨a, s1, e, _, hb⟩ | ⟨a, s1, s2, e, _, hb⟩ |
    ⟨a, s1, s3, e, _, hb⟩ | ⟨a, s1, s4, e, _, hb⟩ | ⟨a, s1, s5, _, hb⟩
  all_goals rw [hb] at h1 ⊢
  all_goals try (simp at h1; done)
  rcases bootstrap_cases fw2 t0 with ⟨e, _, hc⟩ | ⟨b, t1, e, _, hc⟩ | ⟨b, t1, t2, e, _, hc⟩ |
    ⟨b, t1, t3, e, _, hc⟩ | ⟨b, t1, t4, e, _, hc⟩ | ⟨b, t1, t5, _, hc⟩
  all_goals rw [hc] at h2 ⊢
  all_goals try (simp at h2; done)
  simp [Call.method, Call.args, Call.receiver?, PrimeVue, ConfirmationService, ToastService]

/-- Witness of C10: the quiet host handing out instance 3 and the counting
    host handing out instance 7 see the same calls with the same arguments. -/
theorem trace_is_constant_witness :
    (bootstrap (quietHost 3) true).trace.map (fun c => (c.method, c.args)) =
      (bootstrap (throwingHost 9) 0).trace.map (fun c => (c.method, c.args)) ∧
    (bootstrap (quietHost 3) true).trace.length = 5 :=
  ⟨(trace_is_constant (quietHost 3) true (throwingHost 9) 0 rfl rfl).1,
   (trace_is_constant (quietHost 3) true (throwingHost 9) 0 rfl rfl).2.2.1⟩

end Claims

end MainJs
